import Mathlib

/-!
Verification development for the LiTalkOn mobile voice-practice client.

The definitions below are shallow embeddings of the TypeScript code in
`src/mobile-app/src/services/api.ts` and `src/mobile-app/src/services/auth.ts`,
plus (for the alignment engine, which has no implementation in the repository)
a model built from the design document.  JavaScript strings are embedded as
Lean `String`s; where character-level reasoning is needed (extension parsing,
header construction) we work on the underlying `List Char` so that every
definition is structurally recursive and kernel-computable.
-/

/-! ## Character-level string helpers (JS `split`, `startsWith`, `toLowerCase`) -/

/-- Model of JavaScript `s.startsWith(p)`: the first `p.length` characters of
`s` equal `p`.  Working with `take` keeps the definition structurally
computable. -/
def startsWithChars (p s : List Char) : Bool :=
  s.take p.length == p

/-- Model of JavaScript `name.split('.')`: split a character list at every
`'.'`.  Like the JS function, the result is always non-empty and splitting the
empty string yields `[[]]`. -/
def splitDots : List Char → List (List Char)
  | [] => [[]]
  | c :: rest =>
    match splitDots rest with
    | [] => [[c]]
    | g :: gs => if c = '.' then [] :: g :: gs else (c :: g) :: gs

/-- Character-wise ASCII lower-casing, modelling JS `toLowerCase` on the
file-name extensions that occur here. -/
def lowerChars (s : List Char) : List Char :=
  s.map Char.toLower

/-! ## File-type validation in `analyzeVoiceComparison` (api.ts lines 330-357) -/

/-- An uploaded file as seen by `analyzeVoiceComparison`: the declared MIME
type (`userAudioFile.type || ''`) and the file name (`userAudioFile.name || ''`). -/
structure AudioFile where
  type : String
  name : String
deriving DecidableEq

/-- Model of `fileName.split('.').pop()?.toLowerCase() || ''` (api.ts line 334):
the last dot-separated component of the name, lower-cased. -/
def fileExt (name : String) : List Char :=
  lowerChars ((splitDots name.data).getLastD [])

/-- Model of the `isMP3` check (api.ts lines 343-345): the MIME type is
`audio/mp3` or `audio/mpeg`, or the extension is `mp3`. -/
def isMP3 (f : AudioFile) : Bool :=
  (f.type == "audio/mp3" || f.type == "audio/mpeg") || fileExt f.name == "mp3".data

/-- Model of the explicit video rejection condition (api.ts line 353): the MIME
type starts with `video/`, or the extension is `mp4`, `mov` or `avi`. -/
def isVideoFile (f : AudioFile) : Bool :=
  startsWithChars "video/".data f.type.data
    || fileExt f.name == "mp4".data
    || fileExt f.name == "mov".data
    || fileExt f.name == "avi".data

/-- Model of the client-side validation block of `analyzeVoiceComparison`
(api.ts lines 330-357): first the `isMP3` check throws for non-MP3 input, then
video input is rejected explicitly.  `Except.error` is a thrown `Error` with
the given message. -/
def validateUserAudioFile (f : AudioFile) : Except String Unit :=
  if !isMP3 f then
    .error "Invalid file type. Only MP3 audio files are accepted. Please upload an MP3 file."
  else if isVideoFile f then
    .error "Video files are not accepted. Please upload an MP3 audio file."
  else
    .ok ()

/-- The multipart form built by `analyzeVoiceComparison` (api.ts lines 384-388)
once validation has passed. -/
structure AnalyzeFormData where
  originalClipId : String
  test_id : String
  test_type : Nat
  userAudio : AudioFile
deriving DecidableEq

/-- Model of the pre-network phase of `analyzeVoiceComparison` (api.ts lines
330-394): validate the file, then build the form data and hand it to the
network layer.  The stored auth token is taken as an argument because the code
inspects it (lines 359-364) but only logs a warning when it is missing; a
`none` token neither aborts nor changes the request built here. -/
def prepareAnalyzeRequest (tok : Option String) (originalClipId testId : String)
    (testType : Nat) (f : AudioFile) : Except String AnalyzeFormData :=
  match validateUserAudioFile f with
  | .error e => .error e
  | .ok () => .ok ⟨originalClipId, testId, testType, f⟩

/-! ## The request interceptor's Authorization header (api.ts lines 136-155) -/

/-- The characters of the Django REST framework header marker `"Token "`. -/
def tokenMarker : List Char := "Token ".data

/-- Model of the header value computed by the request interceptor for a truthy
stored token (api.ts lines 141-146): the token itself when it already starts
with `"Token "`, otherwise `"Token "` prepended. -/
def authHeaderChars (tok : List Char) : List Char :=
  if startsWithChars tokenMarker tok then tok else tokenMarker ++ tok

/-- Model of the whole request interceptor (api.ts lines 136-151): with a falsy
stored token (absent or empty) no Authorization header is attached; otherwise
the header is `authHeaderChars` of the token. -/
def requestAuthHeader : Option String → Option (List Char)
  | none => none
  | some s => if s == "" then none else some (authHeaderChars s.data)

/-! ## Login response handling (auth.ts lines 126-168) -/

/-- The shape-sniffed fields of the backend login response that the token
selection logic reads.  `none` models an absent field; JS truthiness makes an
empty string behave like an absent field, which `truthyStr` captures. -/
structure LoginRespData where
  token : Option String
  key : Option String
  access : Option String
  refresh : Option String
deriving DecidableEq

/-- JavaScript truthiness of an optional string field: present and non-empty. -/
def truthyStr : Option String → Bool
  | none => false
  | some s => !(s == "")

/-- The externally visible effects of the success path of `login` (auth.ts
lines 126-168) that the spec talks about: which token was stored via
`setAuthToken`, which refresh token was persisted, and the resolved value. -/
structure LoginEffects where
  storedToken : Option String
  storedRefresh : Option String
  returned : LoginRespData
deriving DecidableEq

/-- Model of the token selection and refresh-token persistence of `login`
(auth.ts lines 128-147): `token` is checked first, then `key`, then `access`;
only in the `access` branch is a present `refresh` field persisted.  When no
branch fires nothing is stored.  The function always resolves with the raw
response data (auth.ts line 168). -/
def loginHandleResponse (d : LoginRespData) : LoginEffects :=
  if truthyStr d.token then
    ⟨d.token, none, d⟩
  else if truthyStr d.key then
    ⟨d.key, none, d⟩
  else if truthyStr d.access then
    ⟨d.access, if truthyStr d.refresh then d.refresh else none, d⟩
  else
    ⟨none, none, d⟩

/-- Statement of the claimed token choice, written from the claim's words: the
first of `token`, `key`, `access` that is present. -/
def claimedTokenChoice (d : LoginRespData) : Option String :=
  if truthyStr d.token then d.token
  else if truthyStr d.key then d.key
  else if truthyStr d.access then d.access
  else none

/-- Statement of the claimed refresh persistence, written from the claim's
words: persisted only in the `access` case and only when `refresh` is present. -/
def claimedRefreshChoice (d : LoginRespData) : Option String :=
  if !truthyStr d.token && !truthyStr d.key && truthyStr d.access && truthyStr d.refresh
  then d.refresh else none

/-! ## Auth state, `clearAuth` (api.ts lines 116-126) and `logout`
(auth.ts lines 297-324) -/

/-- Storage key of the auth token (api.ts line 13). -/
def AUTH_TOKEN_KEY : String := "auth_token"

/-- Storage key of the user data (api.ts line 14). -/
def USER_DATA_KEY : String := "user_data"

/-- Storage key of the refresh token (auth.ts line 10). -/
def REFRESH_TOKEN_KEY : String := "refresh_token"

/-- The client's auth state: the module-level `authToken` and `currentUser`
variables plus the set of keys present in `AsyncStorage`. -/
structure AuthState where
  authToken : Option String
  currentUser : Option String
  storedKeys : List String
deriving DecidableEq

/-- Model of `clearAuth` (api.ts lines 116-126): null both module variables and
`multiRemove` the token and user-data entries.  A storage failure is caught and
swallowed inside `clearAuth`, so the operation is total. -/
def clearAuth (st : AuthState) : AuthState :=
  ⟨none, none, st.storedKeys.filter (fun k => !(k == AUTH_TOKEN_KEY || k == USER_DATA_KEY))⟩

/-- Model of `AsyncStorage.removeItem`. -/
def removeStoredKey (key : String) (st : AuthState) : AuthState :=
  { st with storedKeys := st.storedKeys.filter (fun k => !(k == key)) }

/-- Model of `logout` (auth.ts lines 297-324).  The Boolean records whether the
server logout request succeeded; the `try` branch and the `catch` branch run
the same cleanup, and the `catch` branch deliberately does not rethrow, so the
result is `.ok` either way. -/
def logout (serverOk : Bool) (st : AuthState) : Except String AuthState :=
  if serverOk then
    .ok (removeStoredKey REFRESH_TOKEN_KEY (clearAuth st))
  else
    .ok (removeStoredKey REFRESH_TOKEN_KEY (clearAuth st))

/-! ## The response interceptor's 401 handling (api.ts lines 158-243) -/

/-- Client coordination state used by the 401 handling: the module-level
`isRefreshing` flag and `failedQueue` (promises are identified by numbers),
together with the auth state touched by `clearAuth`. -/
structure ClientState where
  auth : AuthState
  isRefreshing : Bool
  failedQueue : List Nat
deriving DecidableEq

/-- What the response interceptor does with one request that failed with
HTTP 401 (api.ts lines 171-198): reject it with a message (after clearing
auth), push it onto `failedQueue`, or mark it and start a token refresh. -/
inductive Action401 where
  | reject (msg : String)
  | enqueued
  | startRefresh
deriving DecidableEq

/-- Model of the 401 branch of the response interceptor (api.ts lines 171-198).
`retryMark` is the `_retry` flag already on the request's config, `pid`
identifies the promise pushed when the request is queued.  A request that
already carries `_retry` is rejected with the session-expired error after
`clearAuth`; otherwise, while a refresh is in flight it is enqueued, and
otherwise it starts the (single) refresh. -/
def on401 (st : ClientState) (retryMark : Bool) (pid : Nat) : Action401 × ClientState :=
  if retryMark then
    (.reject "Session expired. Please log in again.", { st with auth := clearAuth st.auth })
  else if st.isRefreshing then
    (.enqueued, { st with failedQueue := st.failedQueue ++ [pid] })
  else
    (.startRefresh, { st with isRefreshing := true })

/-- How one queued promise is settled by `processQueue`. -/
inductive PromResult where
  | rejected (msg : String)
  | resolved (tok : Option String)
deriving DecidableEq

/-- The settlement `processQueue` applies to every queued promise: rejected
with the error when one is given, otherwise resolved with the token. -/
def settleOutcome (err : Option String) (tok : Option String) : PromResult :=
  match err with
  | some e => .rejected e
  | none => .resolved tok

/-- Model of `processQueue` (api.ts lines 39-49): settle every queued promise
with `settleOutcome` and reset `failedQueue` to `[]`.  Returns the list of
settlements and the new queue. -/
def processQueue (err : Option String) (tok : Option String) (q : List Nat) :
    List (Nat × PromResult) × List Nat :=
  (q.map (fun p => (p, settleOutcome err tok)), [])

/-! ## Error shaping for `analyzeVoiceComparison` (api.ts lines 158-280 and
400-439) -/

/-- A JSON field value as far as the interceptor's 400 handling inspects it. -/
inductive JsonField where
  | str (v : String)
  | arr (vs : List String)
  | other
deriving DecidableEq

/-- The body of a non-2xx response, as far as the error handling inspects it:
absent/null, a plain string, or an object given as an ordered field list. -/
inductive RespData where
  | nullData
  | str (v : String)
  | obj (fields : List (String × JsonField))
deriving DecidableEq

/-- Model of the 400-handler's message extraction (api.ts lines 250-274):
default message unless the body is a non-empty string, or an object whose first
key is truthy and maps to a non-empty string or a non-empty string array. -/
def badRequestMessage (d : RespData) : String :=
  match d with
  | .nullData => "Invalid request. Please check your data."
  | .str v => if v == "" then "Invalid request. Please check your data." else v
  | .obj [] => "Invalid request. Please check your data."
  | .obj ((k, v) :: _) =>
    if k == "" then "Invalid request. Please check your data."
    else
      match v with
      | .str m => if m == "" then "Invalid request. Please check your data." else k ++ ": " ++ m
      | .arr [] => "Invalid request. Please check your data."
      | .arr (m :: _) => k ++ ": " ++ m
      | .other => "Invalid request. Please check your data."

/-- Model of `error.response.data.message || 'Unknown error'` as interpolated
by the generic branch of `analyzeVoiceComparison` (api.ts line 428): a truthy
`message` string is used, an array stringifies JS-style, anything else falls
back to `Unknown error`. -/
def respMessage (d : RespData) : String :=
  match d with
  | .obj fields =>
    match fields.lookup "message" with
    | some (.str m) => if m == "" then "Unknown error" else m
    | some (.arr vs) => String.intercalate "," vs
    | some .other => "Unknown error"
    | none => "Unknown error"
  | _ => "Unknown error"

/-- The three ways the response interceptor's error handler can leave a failed
request: pass the original error through (kept status and body), reject with a
freshly constructed plain `Error` (which carries no `response` field), or
re-issue the request after a successful token refresh. -/
inductive InterceptOutcome where
  | passThrough (status : Nat) (data : RespData)
  | plainErr (msg : String)
  | retriedRequest
deriving DecidableEq

/-- Model of the response interceptor's error handler (api.ts lines 162-279)
for a first-attempt request while no other refresh is in flight (the state a
fresh `analyzeVoiceComparison` call is in).  `refreshOk` is the Boolean result
of `refreshToken`, which catches its own failures and never throws (auth.ts
lines 356-386).  401 either retries after a successful refresh or rejects with
the session-expired error; 403, 404 and 400 are converted to plain `Error`s;
every other status is passed through unchanged. -/
def responseInterceptorOnError (status : Nat) (data : RespData) (refreshOk : Bool) :
    InterceptOutcome :=
  if status = 401 then
    (if refreshOk then .retriedRequest else .plainErr "Session expired. Please log in again.")
  else if status = 403 then .plainErr "You do not have permission to perform this action."
  else if status = 404 then .plainErr "The requested resource was not found."
  else if status = 400 then .plainErr (badRequestMessage data)
  else .passThrough status data

/-- Model of the `catch` block of `analyzeVoiceComparison` (api.ts lines
400-439) applied to what the interceptor produced.  `none` means no error is
thrown from this path (the request was transparently re-issued).  A plain
`Error` has neither `error.response` nor `error.request`, so it lands in the
final branch and is rethrown as `Error: <message>`. -/
def analyzeCatch (originalClipId : String) : InterceptOutcome → Option String
  | .retriedRequest => none
  | .plainErr m => some ("Error: " ++ m)
  | .passThrough s d =>
    some (if s = 401 then "Your session has expired. Please log in again."
      else if s = 403 then "You do not have permission to perform this analysis."
      else if s = 404 then "Original voice clip with ID " ++ originalClipId ++ " was not found."
      else if s = 413 then "The audio file is too large. Please use a smaller file."
      else if s = 415 then "The audio file format is not supported. Please upload an MP3 file."
      else "Server error: " ++ respMessage d)

/-- The end-to-end error produced by `analyzeVoiceComparison` for a non-2xx
server response: the interceptor transforms the failure first, then the
function's own `catch` shapes the thrown message. -/
def analyzeVoiceError (originalClipId : String) (status : Nat) (data : RespData)
    (refreshOk : Bool) : Option String :=
  analyzeCatch originalClipId (responseInterceptorOnError status data refreshOk)

/-- Statement of the amended status mapping, written from the amended claim's
words, to be compared with the composed code model `analyzeVoiceError`. -/
def amendedAnalyzeError (originalClipId : String) (status : Nat) (data : RespData)
    (refreshOk : Bool) : Option String :=
  if status = 401 then
    (if refreshOk then none else some "Error: Session expired. Please log in again.")
  else if status = 403 then some "Error: You do not have permission to perform this action."
  else if status = 404 then some "Error: The requested resource was not found."
  else if status = 400 then some ("Error: " ++ badRequestMessage data)
  else if status = 413 then some "The audio file is too large. Please use a smaller file."
  else if status = 415 then some "The audio file format is not supported. Please upload an MP3 file."
  else some ("Server error: " ++ respMessage data)

/-- The accepted-format set named by the specification (spec sections 4.5
and 6). -/
def specAcceptedFormats : List String := ["mp3", "mp4", "wav", "m4a"]

/-! ## Alignment engine (spec sections 4.3 and 8)

The repository contains no implementation of the analysis engine; the design
document specifies it.  The definitions in this section are therefore built
from the specification text rather than from source code. -/

/-- Modelled from the spec: a `FeatureSequence` frame (spec section 3) holding
the fundamental-frequency estimate (`none` marks an unvoiced frame), the
short-time energy, and a coarse phonetic-unit label with a confidence value.
Exact numeric representation is a tunable; rational numbers keep the model
exact and computable. -/
structure Frame where
  f0 : Option Rat
  energy : Rat
  label : Nat
  conf : Rat
deriving DecidableEq

/-- Modelled from the spec: the per-frame local cost of the alignment engine
(spec section 4.3) — pitch distance on voiced frame pairs plus a
phonetic-label mismatch penalty.  The exact weights are implementation-defined
tunables (spec section 9). -/
def frameCost (a b : Frame) : Rat :=
  (match a.f0, b.f0 with
    | some p, some q => |p - q|
    | _, _ => 0)
  + (if a.label = b.label then 0 else 1)

/-- Local cost of pairing user frame `i` with reference frame `j`; out-of-range
indices read a silent default frame (they are never reached by the path). -/
def cellCost (user ref : List Frame) (i j : Nat) : Rat :=
  frameCost (user.getD i ⟨none, 0, 0, 0⟩) (ref.getD j ⟨none, 0, 0, 0⟩)

/-- Modelled from the spec: the DTW accumulated-cost table (spec section 4.3),
over an arbitrary local-cost function `c`.  Cell `(i, j)` holds the minimal
cost of a monotone continuity-constrained path from `(0, 0)` to `(i, j)` using
steps `(+1, 0)`, `(0, +1)` and `(+1, +1)`. -/
def dtwAcc (c : Nat → Nat → Rat) : Nat → Nat → Rat
  | 0, 0 => c 0 0
  | i + 1, 0 => dtwAcc c i 0 + c (i + 1) 0
  | 0, j + 1 => dtwAcc c 0 j + c 0 (j + 1)
  | i + 1, j + 1 =>
    c (i + 1) (j + 1)
      + min (dtwAcc c i j) (min (dtwAcc c i (j + 1)) (dtwAcc c (i + 1) j))

/-- Modelled from the spec: the warping path recovered by backtracking through
the accumulated-cost table from `(i, j)` to `(0, 0)` (spec section 4.3).  On
cost ties the diagonal predecessor is preferred — the spec's canonical
closest-to-the-diagonal tie-break. -/
def dtwPath (c : Nat → Nat → Rat) : Nat → Nat → List (Nat × Nat)
  | 0, 0 => [(0, 0)]
  | i + 1, 0 => dtwPath c i 0 ++ [(i + 1, 0)]
  | 0, j + 1 => dtwPath c 0 j ++ [(0, j + 1)]
  | i + 1, j + 1 =>
    (if dtwAcc c i j ≤ dtwAcc c i (j + 1) ∧ dtwAcc c i j ≤ dtwAcc c (i + 1) j then
      dtwPath c i j
    else if dtwAcc c i (j + 1) ≤ dtwAcc c (i + 1) j then
      dtwPath c i (j + 1)
    else
      dtwPath c (i + 1) j) ++ [(i + 1, j + 1)]

/-- Modelled from the spec: an `Alignment` (spec section 3; the name `Alignment` itself is taken by the library, hence the prefixed name) — the warping path
between user and reference frame indices, with the retained accumulated cost. -/
structure DtwAlignment where
  path : List (Nat × Nat)
  pathCost : Rat
deriving DecidableEq

/-- Modelled from the spec: the minimum frame count below which the alignment
engine fails with `AlignmentError` (spec section 4.3 suggests 3). -/
def minFrameCount : Nat := 3

/-- Modelled from the spec: the alignment engine (spec section 4.3).  Inputs
shorter than `minFrameCount` fail with `AlignmentError`; otherwise DTW over
the combined pitch/label cost produces the warping path from `(0, 0)` to
`(lastUser, lastRef)` together with its accumulated cost. -/
def alignSequences (ref user : List Frame) : Except String DtwAlignment :=
  if ref.length < minFrameCount ∨ user.length < minFrameCount then
    .error "AlignmentError"
  else
    .ok ⟨dtwPath (cellCost user ref) (user.length - 1) (ref.length - 1),
      dtwAcc (cellCost user ref) (user.length - 1) (ref.length - 1)⟩

/-- One admissible DTW step between consecutive path entries: advance the user
index, the reference index, or both, each by exactly one. -/
def DtwStep (p q : Nat × Nat) : Prop :=
  (q.1 = p.1 + 1 ∧ q.2 = p.2) ∨ (q.1 = p.1 ∧ q.2 = p.2 + 1)
    ∨ (q.1 = p.1 + 1 ∧ q.2 = p.2 + 1)

/-- Componentwise order on index pairs: non-decreasing in both dimensions. -/
def PairMono (p q : Nat × Nat) : Prop :=
  p.1 ≤ q.1 ∧ p.2 ≤ q.2

instance : IsTrans (Nat × Nat) PairMono :=
  ⟨fun _ _ _ h₁ h₂ => ⟨le_trans h₁.1 h₂.1, le_trans h₁.2 h₂.2⟩⟩

/-- Concrete three-frame reference sequence used to instantiate the alignment
theorem. -/
def c7RefSeq : List Frame :=
  [⟨some 2, 1, 0, 1⟩, ⟨none, 0, 1, 1⟩, ⟨some 3, 1, 0, 1⟩]

/-- Concrete three-frame user sequence used to instantiate the alignment
theorem. -/
def c7UserSeq : List Frame :=
  [⟨some 2, 1, 0, 1⟩, ⟨some 5, 1, 1, 1⟩, ⟨none, 0, 2, 1⟩]

/-! ## Generic invariants of the DTW backtracking path -/

/-- Every DTW path begins at `(0, 0)` (fuel-indexed induction along the
recursion of `dtwPath`). -/
theorem dtwPath_head_aux (c : Nat → Nat → Rat) :
    ∀ n i j, i + j ≤ n → ∃ t, dtwPath c i j = (0, 0) :: t := by
  intro n
  induction n with
  | zero =>
    intro i j h
    have hi : i = 0 := by omega
    have hj : j = 0 := by omega
    subst hi; subst hj
    exact ⟨[], by simp [dtwPath]⟩
  | succ n ih =>
    intro i j h
    match i, j with
    | 0, 0 => exact ⟨[], by simp [dtwPath]⟩
    | i + 1, 0 =>
      obtain ⟨t, ht⟩ := ih i 0 (by omega)
      exact ⟨t ++ [(i + 1, 0)], by simp [dtwPath, ht]⟩
    | 0, j + 1 =>
      obtain ⟨t, ht⟩ := ih 0 j (by omega)
      exact ⟨t ++ [(0, j + 1)], by simp [dtwPath, ht]⟩
    | i + 1, j + 1 =>
      by_cases h₁ : dtwAcc c i j ≤ dtwAcc c i (j + 1) ∧ dtwAcc c i j ≤ dtwAcc c (i + 1) j
      · obtain ⟨t, ht⟩ := ih i j (by omega)
        exact ⟨t ++ [(i + 1, j + 1)], by simp [dtwPath, h₁, ht]⟩
      · by_cases h₂ : dtwAcc c i (j + 1) ≤ dtwAcc c (i + 1) j
        · obtain ⟨t, ht⟩ := ih i (j + 1) (by omega)
          exact ⟨t ++ [(i + 1, j + 1)], by simp [dtwPath, h₁, h₂, ht]⟩
        · obtain ⟨t, ht⟩ := ih (i + 1) j (by omega)
          exact ⟨t ++ [(i + 1, j + 1)], by simp [dtwPath, h₁, h₂, ht]⟩

/-- Every DTW path ends at its target cell. -/
theorem dtwPath_getLast (c : Nat → Nat → Rat) (i j : Nat) :
    (dtwPath c i j).getLast? = some (i, j) := by
  match i, j with
  | 0, 0 => simp [dtwPath]
  | i + 1, 0 => simp [dtwPath]
  | 0, j + 1 => simp [dtwPath]
  | i + 1, j + 1 => simp [dtwPath]

/-- Consecutive entries of a DTW path differ by an admissible step. -/
theorem dtwPath_chain_aux (c : Nat → Nat → Rat) :
    ∀ n i j, i + j ≤ n → List.Chain' DtwStep (dtwPath c i j) := by
  intro n
  induction n with
  | zero =>
    intro i j h
    have hi : i = 0 := by omega
    have hj : j = 0 := by omega
    subst hi; subst hj
    simp [dtwPath]
  | succ n ih =>
    intro i j h
    have link : ∀ i' j' : Nat, DtwStep (i', j') (i, j) → i' + j' ≤ n →
        List.Chain' DtwStep (dtwPath c i' j' ++ [(i, j)]) := by
      intro i' j' hs hle
      refine List.Chain'.append (ih i' j' hle) (List.chain'_singleton _) ?_
      intro x hx y hy
      rw [dtwPath_getLast] at hx
      simp at hx hy
      subst hx; subst hy
      exact hs
    match i, j with
    | 0, 0 => simp [dtwPath]
    | i + 1, 0 =>
      have := link i 0 (by simp [DtwStep]) (by omega)
      simpa [dtwPath] using this
    | 0, j + 1 =>
      have := link 0 j (by simp [DtwStep]) (by omega)
      simpa [dtwPath] using this
    | i + 1, j + 1 =>
      by_cases h₁ : dtwAcc c i j ≤ dtwAcc c i (j + 1) ∧ dtwAcc c i j ≤ dtwAcc c (i + 1) j
      · have := link i j (by simp [DtwStep]) (by omega)
        simpa [dtwPath, h₁] using this
      · by_cases h₂ : dtwAcc c i (j + 1) ≤ dtwAcc c (i + 1) j
        · have := link i (j + 1) (by simp [DtwStep]) (by omega)
          simpa [dtwPath, h₁, h₂] using this
        · have := link (i + 1) j (by simp [DtwStep]) (by omega)
          simpa [dtwPath, h₁, h₂] using this

/-- Every user index up to the target is visited by the DTW path (no gaps in
the first dimension). -/
theorem dtwPath_covers_fst_aux (c : Nat → Nat → Rat) :
    ∀ n i j, i + j ≤ n → ∀ a, a ≤ i → ∃ b, (a, b) ∈ dtwPath c i j := by
  intro n
  induction n with
  | zero =>
    intro i j h a ha
    have hi : i = 0 := by omega
    have hj : j = 0 := by omega
    subst hi; subst hj
    have : a = 0 := by omega
    subst this
    exact ⟨0, by simp [dtwPath]⟩
  | succ n ih =>
    intro i j h a ha
    match i, j with
    | 0, 0 =>
      have : a = 0 := by omega
      subst this
      exact ⟨0, by simp [dtwPath]⟩
    | i + 1, 0 =>
      rcases Nat.lt_or_ge a (i + 1) with hlt | hge
      · obtain ⟨b, hb⟩ := ih i 0 (by omega) a (by omega)
        exact ⟨b, by simp [dtwPath]; exact Or.inl hb⟩
      · have : a = i + 1 := by omega
        subst this
        exact ⟨0, by simp [dtwPath]⟩
    | 0, j + 1 =>
      have : a = 0 := by omega
      subst this
      exact ⟨j + 1, by simp [dtwPath]⟩
    | i + 1, j + 1 =>
      by_cases h₁ : dtwAcc c i j ≤ dtwAcc c i (j + 1) ∧ dtwAcc c i j ≤ dtwAcc c (i + 1) j
      · rcases Nat.lt_or_ge a (i + 1) with hlt | hge
        · obtain ⟨b, hb⟩ := ih i j (by omega) a (by omega)
          exact ⟨b, by simp [dtwPath, h₁]; exact Or.inl hb⟩
        · have : a = i + 1 := by omega
          subst this
          exact ⟨j + 1, by simp [dtwPath, h₁]⟩
      · by_cases h₂ : dtwAcc c i (j + 1) ≤ dtwAcc c (i + 1) j
        · rcases Nat.lt_or_ge a (i + 1) with hlt | hge
          · obtain ⟨b, hb⟩ := ih i (j + 1) (by omega) a (by omega)
            exact ⟨b, by simp [dtwPath, h₁, h₂]; exact Or.inl hb⟩
          · have : a = i + 1 := by omega
            subst this
            exact ⟨j + 1, by simp [dtwPath, h₁, h₂]⟩
        · obtain ⟨b, hb⟩ := ih (i + 1) j (by omega) a (by omega)
          exact ⟨b, by simp [dtwPath, h₁, h₂]; exact Or.inl hb⟩

/-- Every reference index up to the target is visited by the DTW path (no gaps
in the second dimension). -/
theorem dtwPath_covers_snd_aux (c : Nat → Nat → Rat) :
    ∀ n i j, i + j ≤ n → ∀ b, b ≤ j → ∃ a, (a, b) ∈ dtwPath c i j := by
  intro n
  induction n with
  | zero =>
    intro i j h b hb
    have hi : i = 0 := by omega
    have hj : j = 0 := by omega
    subst hi; subst hj
    have : b = 0 := by omega
    subst this
    exact ⟨0, by simp [dtwPath]⟩
  | succ n ih =>
    intro i j h b hb
    match i, j with
    | 0, 0 =>
      have : b = 0 := by omega
      subst this
      exact ⟨0, by simp [dtwPath]⟩
    | i + 1, 0 =>
      have : b = 0 := by omega
      subst this
      exact ⟨i + 1, by simp [dtwPath]⟩
    | 0, j + 1 =>
      rcases Nat.lt_or_ge b (j + 1) with hlt | hge
      · obtain ⟨a, hamem⟩ := ih 0 j (by omega) b (by omega)
        exact ⟨a, by simp [dtwPath]; exact Or.inl hamem⟩
      · have : b = j + 1 := by omega
        subst this
        exact ⟨0, by simp [dtwPath]⟩
    | i + 1, j + 1 =>
      by_cases h₁ : dtwAcc c i j ≤ dtwAcc c i (j + 1) ∧ dtwAcc c i j ≤ dtwAcc c (i + 1) j
      · rcases Nat.lt_or_ge b (j + 1) with hlt | hge
        · obtain ⟨a, hamem⟩ := ih i j (by omega) b (by omega)
          exact ⟨a, by simp [dtwPath, h₁]; exact Or.inl hamem⟩
        · have : b = j + 1 := by omega
          subst this
          exact ⟨i + 1, by simp [dtwPath, h₁]⟩
      · by_cases h₂ : dtwAcc c i (j + 1) ≤ dtwAcc c (i + 1) j
        · obtain ⟨a, hamem⟩ := ih i (j + 1) (by omega) b hb
          exact ⟨a, by simp [dtwPath, h₁, h₂]; exact Or.inl hamem⟩
        · rcases Nat.lt_or_ge b (j + 1) with hlt | hge
          · obtain ⟨a, hamem⟩ := ih (i + 1) j (by omega) b (by omega)
            exact ⟨a, by simp [dtwPath, h₁, h₂]; exact Or.inl hamem⟩
          · have : b = j + 1 := by omega
            subst this
            exact ⟨i + 1, by simp [dtwPath, h₁, h₂]⟩

/-- The DTW path is pairwise non-decreasing in both coordinates. -/
theorem dtwPath_pairwise_mono (c : Nat → Nat → Rat) (i j : Nat) :
    List.Pairwise PairMono (dtwPath c i j) := by
  rw [← List.chain'_iff_pairwise]
  refine (dtwPath_chain_aux c (i + j) i j le_rfl).imp ?_
  intro p q hs
  rcases hs with ⟨h1, h2⟩ | ⟨h1, h2⟩ | ⟨h1, h2⟩ <;> exact ⟨by omega, by omega⟩

/-! ## Claim theorems -/

/-- C1 (counterexample): `wav` is in the specification's accepted format set,
yet client-side validation rejects a `.wav` file with MIME type `audio/wav`
before any network request — the code accepts only MP3 input, refuting the
claim that the accepted set {mp3, mp4, wav, m4a} is not rejected. -/
theorem C1_counterexample :
    "wav" ∈ specAcceptedFormats
    ∧ validateUserAudioFile ⟨"audio/wav", "recording.wav"⟩ =
        .error "Invalid file type. Only MP3 audio files are accepted. Please upload an MP3 file."
    ∧ prepareAnalyzeRequest (some "tok") "clip1" "test1" 0 ⟨"audio/wav", "recording.wav"⟩ =
        .error "Invalid file type. Only MP3 audio files are accepted. Please upload an MP3 file." := by
  exact ⟨by decide, rfl, rfl⟩

/-- C1 (amended): for every non-null user audio file, `analyzeVoiceComparison`
accepts the file for upload exactly when its MIME type is `audio/mp3` or
`audio/mpeg` or its lower-cased extension is `mp3`, and additionally the MIME
type does not start with `video/` and the extension is none of `mp4`, `mov`,
`avi`; every other file makes the operation throw before any network request. -/
theorem C1_amended_accepted_set :
    ∀ (tok : Option String) (clip testId : String) (testType : Nat) (f : AudioFile),
    (prepareAnalyzeRequest tok clip testId testType f).isOk = true
      ↔ (isMP3 f = true ∧ isVideoFile f = false) := by
  intro tok clip testId testType f
  unfold prepareAnalyzeRequest validateUserAudioFile
  cases hm : isMP3 f <;> cases hv : isVideoFile f <;> simp [hm, hv, Except.isOk, Except.toBool]

/-- C2 (counterexample): while a refresh is in progress, a request that
already carries the `_retry` mark and fails with 401 is not enqueued in
`failedQueue` — it is rejected with the session-expired error — refuting the
claim that every further 401-failing request is enqueued. -/
theorem C2_counterexample :
    (⟨⟨some "tok", some "user", []⟩, true, []⟩ : ClientState).isRefreshing = true
    ∧ (on401 ⟨⟨some "tok", some "user", []⟩, true, []⟩ true 7).1 ≠ Action401.enqueued
    ∧ (on401 ⟨⟨some "tok", some "user", []⟩, true, []⟩ true 7).2.failedQueue = [] := by
  exact ⟨rfl, by decide, rfl⟩

/-- C2 (amended): while a token refresh is in progress, every further request
that fails with HTTP 401 and is not already marked `_retry` is enqueued in
`failedQueue` instead of triggering another refresh (a request already marked
`_retry` is instead rejected with the session-expired error); and whenever
`processQueue` runs, every queued entry is settled — rejected with the error
when one is given, otherwise resolved with the token — and `failedQueue` is
left empty. -/
theorem C2_amended_single_flight :
    ∀ (st : ClientState) (pid : Nat) (err tok : Option String) (q : List Nat),
    st.isRefreshing = true →
    ((on401 st false pid).1 = Action401.enqueued
      ∧ (on401 st false pid).2.failedQueue = st.failedQueue ++ [pid]
      ∧ (on401 st false pid).2.isRefreshing = true
      ∧ (processQueue err tok q).2 = []
      ∧ ∀ p ∈ q, (p, settleOutcome err tok) ∈ (processQueue err tok q).1) := by
  intro st pid err tok q h
  refine ⟨by simp [on401, h], by simp [on401, h], by simp [on401, h], rfl, ?_⟩
  intro p hp
  simp [processQueue]
  exact hp

/-- C2 (witness): the amended statement instantiated at a concrete refreshing
state, promise id, error and queue. -/
theorem C2_amended_witness :
    (on401 ⟨⟨none, none, []⟩, true, []⟩ false 5).1 = Action401.enqueued
    ∧ (processQueue (some "Failed to refresh token") none [1, 2]).2 = [] := by
  exact ⟨(C2_amended_single_flight ⟨⟨none, none, []⟩, true, []⟩ 5
      (some "Failed to refresh token") none [1, 2] rfl).1,
    (C2_amended_single_flight ⟨⟨none, none, []⟩, true, []⟩ 5
      (some "Failed to refresh token") none [1, 2] rfl).2.2.2.1⟩

/-- C3: a request whose config already carries the `_retry` mark and which
fails again with HTTP 401 does not start a token refresh and is not enqueued
for re-issue; the interceptor clears the stored auth state (module token and
user nulled, persisted entries removed) and rejects with the session-expired
error. -/
theorem C3_no_second_retry :
    ∀ (st : ClientState) (pid : Nat),
    on401 st true pid =
        (Action401.reject "Session expired. Please log in again.",
          { st with auth := clearAuth st.auth })
    ∧ (on401 st true pid).1 ≠ Action401.startRefresh
    ∧ (on401 st true pid).1 ≠ Action401.enqueued
    ∧ (on401 st true pid).2.auth.authToken = none
    ∧ (on401 st true pid).2.auth.currentUser = none
    ∧ AUTH_TOKEN_KEY ∉ (on401 st true pid).2.auth.storedKeys
    ∧ USER_DATA_KEY ∉ (on401 st true pid).2.auth.storedKeys := by
  intro st pid
  refine ⟨rfl, by simp [on401], by simp [on401], rfl, rfl, ?_, ?_⟩
  · intro hmem
    simp [on401, clearAuth, List.mem_filter] at hmem
  · intro hmem
    simp [on401, clearAuth, List.mem_filter] at hmem

/-- C4 (counterexample): a 404 response to the analyze-voice request does not
produce the unknown-clip error naming the `originalClipId`; the response
interceptor converts the 404 into a plain error first, so the thrown message
is the interceptor's generic not-found message. -/
theorem C4_counterexample :
    analyzeVoiceError "clip123" 404 (.obj []) true =
        some "Error: The requested resource was not found."
    ∧ analyzeVoiceError "clip123" 404 (.obj []) true ≠
        some ("Original voice clip with ID " ++ "clip123" ++ " was not found.") := by
  exact ⟨rfl, by decide⟩

/-- C4 (amended): the response interceptor transforms non-2xx failures before
the `catch` of `analyzeVoiceComparison` sees them, so the thrown error is: for
404 the interceptor's generic not-found message (not naming the clip id), for
403 the interceptor's permission message, for 400 the interceptor's extracted
validation message, each rethrown with an `Error: ` prelude; for 413 the
oversize-payload message and for 415 the unsupported-media-type message (these
statuses pass through); for any other non-401 status the generic
`Server error: ` message; and for 401 either a transparent retry after a
successful token refresh — the only case in which no error is thrown on this
path — or the session-expired error when the refresh fails. -/
theorem C4_amended_status_mapping :
    ∀ (clip : String) (status : Nat) (data : RespData) (refreshOk : Bool),
    analyzeVoiceError clip status data refreshOk = amendedAnalyzeError clip status data refreshOk
    ∧ (analyzeVoiceError clip status data refreshOk = none
        ↔ status = 401 ∧ refreshOk = true) := by
  intro clip status data refreshOk
  by_cases h1 : status = 401
  · cases refreshOk <;>
      simp [analyzeVoiceError, responseInterceptorOnError, amendedAnalyzeError, analyzeCatch, h1]
  · by_cases h2 : status = 403
    · simp [analyzeVoiceError, responseInterceptorOnError, amendedAnalyzeError, analyzeCatch,
        h1, h2]
    · by_cases h3 : status = 404
      · simp [analyzeVoiceError, responseInterceptorOnError, amendedAnalyzeError, analyzeCatch,
          h1, h2, h3]
      · by_cases h4 : status = 400
        · simp [analyzeVoiceError, responseInterceptorOnError, amendedAnalyzeError, analyzeCatch,
            h1, h2, h3, h4]
        · by_cases h5 : status = 413
          · simp [analyzeVoiceError, responseInterceptorOnError, amendedAnalyzeError,
              analyzeCatch, h1, h2, h3, h4, h5]
          · by_cases h6 : status = 415
            · simp [analyzeVoiceError, responseInterceptorOnError, amendedAnalyzeError,
                analyzeCatch, h1, h2, h3, h4, h5, h6]
            · simp [analyzeVoiceError, responseInterceptorOnError, amendedAnalyzeError,
                analyzeCatch, h1, h2, h3, h4, h5, h6]

/-- C5: any user audio file whose MIME type begins with `video/` or whose
lower-cased extension is `mp4`, `mov` or `avi` makes `analyzeVoiceComparison`
throw before any network request, whatever the other attribute claims. -/
theorem C5_video_rejected :
    ∀ (tok : Option String) (clip testId : String) (testType : Nat) (f : AudioFile),
    (startsWithChars "video/".data f.type.data = true
      ∨ fileExt f.name = "mp4".data ∨ fileExt f.name = "mov".data
      ∨ fileExt f.name = "avi".data) →
    ∃ e, prepareAnalyzeRequest tok clip testId testType f = .error e := by
  intro tok clip testId testType f h
  have hv : isVideoFile f = true := by
    rcases h with h | h | h | h <;> simp [isVideoFile, h]
  by_cases hm : isMP3 f
  · exact ⟨"Video files are not accepted. Please upload an MP3 audio file.",
      by simp [prepareAnalyzeRequest, validateUserAudioFile, hm, hv]⟩
  · exact ⟨"Invalid file type. Only MP3 audio files are accepted. Please upload an MP3 file.",
      by simp [prepareAnalyzeRequest, validateUserAudioFile, hm]⟩

/-- C5 (witness): a spoofed video file (`video/mp4` MIME, `.mp4` extension) is
rejected before any network request. -/
theorem C5_witness :
    (startsWithChars "video/".data (AudioFile.mk "video/mp4" "clip.mp4").type.data = true
      ∨ fileExt (AudioFile.mk "video/mp4" "clip.mp4").name = "mp4".data
      ∨ fileExt (AudioFile.mk "video/mp4" "clip.mp4").name = "mov".data
      ∨ fileExt (AudioFile.mk "video/mp4" "clip.mp4").name = "avi".data)
    ∧ ∃ e, prepareAnalyzeRequest (some "tok") "clip1" "test1" 0
        (AudioFile.mk "video/mp4" "clip.mp4") = .error e := by
  exact ⟨by decide,
    C5_video_rejected (some "tok") "clip1" "test1" 0 (AudioFile.mk "video/mp4" "clip.mp4")
      (by decide)⟩

/-- C6: the login success path selects the stored session token by checking
`token`, then `key`, then `access`; a refresh token is persisted only in the
`access` case and only when `refresh` is present; when none of the three
fields is present nothing is stored, and in every case login resolves with the
raw response data. -/
theorem C6_login_token_selection :
    ∀ d : LoginRespData,
    (loginHandleResponse d).storedToken = claimedTokenChoice d
    ∧ (loginHandleResponse d).storedRefresh = claimedRefreshChoice d
    ∧ (loginHandleResponse d).returned = d := by
  intro d
  unfold loginHandleResponse claimedTokenChoice claimedRefreshChoice
  cases h1 : truthyStr d.token <;> cases h2 : truthyStr d.key <;>
    cases h3 : truthyStr d.access <;> cases h4 : truthyStr d.refresh <;>
    simp [h1, h2, h3, h4]

/-- C7: for any two feature sequences meeting the minimum frame count, the
alignment engine succeeds and produces a warping path that starts at `(0, 0)`,
ends at `(lastUser, lastRef)`, moves only by admissible unit steps, is
pairwise non-decreasing in both dimensions, and leaves no gaps: every user
frame index and every reference frame index occurs on the path. -/
theorem C7_alignment_invariants :
    ∀ (ref user : List Frame),
    minFrameCount ≤ ref.length → minFrameCount ≤ user.length →
    ∃ A, alignSequences ref user = .ok A
      ∧ (∃ t, A.path = (0, 0) :: t)
      ∧ A.path.getLast? = some (user.length - 1, ref.length - 1)
      ∧ List.Chain' DtwStep A.path
      ∧ List.Pairwise PairMono A.path
      ∧ (∀ a, a < user.length → ∃ b, (a, b) ∈ A.path)
      ∧ (∀ b, b < ref.length → ∃ a, (a, b) ∈ A.path) := by
  intro ref user href huser
  have hcond : ¬(ref.length < minFrameCount ∨ user.length < minFrameCount) := by omega
  refine ⟨⟨dtwPath (cellCost user ref) (user.length - 1) (ref.length - 1),
    dtwAcc (cellCost user ref) (user.length - 1) (ref.length - 1)⟩, ?_, ?_, ?_, ?_, ?_, ?_, ?_⟩
  · simp [alignSequences, hcond]
  · exact dtwPath_head_aux _ ((user.length - 1) + (ref.length - 1)) _ _ le_rfl
  · exact dtwPath_getLast _ _ _
  · exact dtwPath_chain_aux _ ((user.length - 1) + (ref.length - 1)) _ _ le_rfl
  · exact dtwPath_pairwise_mono _ _ _
  · intro a ha
    exact dtwPath_covers_fst_aux _ ((user.length - 1) + (ref.length - 1)) _ _ le_rfl a
      (by omega)
  · intro b hb
    exact dtwPath_covers_snd_aux _ ((user.length - 1) + (ref.length - 1)) _ _ le_rfl b
      (by omega)

/-- C7 (witness): the alignment invariants instantiated at two concrete
three-frame sequences. -/
theorem C7_witness :
    minFrameCount ≤ c7RefSeq.length
    ∧ minFrameCount ≤ c7UserSeq.length
    ∧ ∃ A, alignSequences c7RefSeq c7UserSeq = .ok A
      ∧ (∃ t, A.path = (0, 0) :: t)
      ∧ A.path.getLast? = some (c7UserSeq.length - 1, c7RefSeq.length - 1)
      ∧ List.Chain' DtwStep A.path
      ∧ List.Pairwise PairMono A.path
      ∧ (∀ a, a < c7UserSeq.length → ∃ b, (a, b) ∈ A.path)
      ∧ (∀ b, b < c7RefSeq.length → ∃ a, (a, b) ∈ A.path) := by
  exact ⟨by decide, by decide, C7_alignment_invariants c7RefSeq c7UserSeq (by decide) (by decide)⟩

/-- C8: whether or not the server logout request succeeds, `logout` resolves
normally with the module token and user nulled and the persisted auth-token,
user-data and refresh-token entries all removed. -/
theorem C8_logout_always_clears :
    ∀ (serverOk : Bool) (st : AuthState),
    ∃ st', logout serverOk st = .ok st'
      ∧ st'.authToken = none
      ∧ st'.currentUser = none
      ∧ AUTH_TOKEN_KEY ∉ st'.storedKeys
      ∧ USER_DATA_KEY ∉ st'.storedKeys
      ∧ REFRESH_TOKEN_KEY ∉ st'.storedKeys := by
  intro serverOk st
  refine ⟨removeStoredKey REFRESH_TOKEN_KEY (clearAuth st), ?_, rfl, rfl, ?_, ?_, ?_⟩
  · cases serverOk <;> rfl
  · intro hmem
    simp [removeStoredKey, clearAuth, List.mem_filter] at hmem
  · intro hmem
    simp [removeStoredKey, clearAuth, List.mem_filter] at hmem
  · intro hmem
    simp [removeStoredKey, clearAuth, List.mem_filter] at hmem

/-- C9 (counterexample): when the stored token is `"Token Token x"`, the sent
header equals the stored token and its tail after the first `"Token "` marker
again begins with `"Token "` — the header carries two markers, refuting the
claim that it always starts with exactly one whatever form was stored. -/
theorem C9_counterexample :
    requestAuthHeader (some "Token Token x") = some ("Token Token x".data)
    ∧ startsWithChars tokenMarker ("Token Token x".data) = true
    ∧ startsWithChars tokenMarker (("Token Token x".data).drop 6) = true := by
  exact ⟨rfl, by decide, by decide⟩

/-- C9 (amended): for every outgoing request with a truthy stored token, the
header equals the token itself when the token already starts with `"Token "`
and `"Token "` prepended to it otherwise; the sent header therefore always
starts with the `"Token "` marker, and it starts with exactly one marker
provided the stored token does not itself begin with a doubled marker. -/
theorem C9_amended_header :
    ∀ s : String, (s == "") = false →
    requestAuthHeader (some s) = some (authHeaderChars s.data)
    ∧ startsWithChars tokenMarker (authHeaderChars s.data) = true
    ∧ (startsWithChars (tokenMarker ++ tokenMarker) s.data = false →
        startsWithChars tokenMarker ((authHeaderChars s.data).drop 6) = false) := by
  intro s hs
  have hlen : tokenMarker.length = 6 := rfl
  refine ⟨by simp [requestAuthHeader, hs], ?_, ?_⟩
  · by_cases hp : startsWithChars tokenMarker s.data = true
    · simp [authHeaderChars, hp]
    · have hAH : authHeaderChars s.data = tokenMarker ++ s.data := by
        simp [authHeaderChars, hp]
      rw [hAH]
      simp [startsWithChars, List.take_left]
  · intro hd
    by_cases hp : startsWithChars tokenMarker s.data = true
    · simp only [authHeaderChars, hp, if_pos]
      by_contra hc
      rw [Bool.not_eq_false] at hc
      have h1 : s.data.take 6 = tokenMarker := by
        have := hp
        simp [startsWithChars, hlen] at this
        exact this
      have h2 : (s.data.drop 6).take 6 = tokenMarker := by
        simp [startsWithChars, hlen] at hc
        exact hc
      have h12 : s.data.take 12 = tokenMarker ++ tokenMarker := by
        have := List.take_add s.data 6 6
        rw [this, h1, h2]
      have : startsWithChars (tokenMarker ++ tokenMarker) s.data = true := by
        simp [startsWithChars, List.length_append, hlen]
        exact h12
      rw [hd] at this
      exact Bool.false_ne_true this
    · have hAH : authHeaderChars s.data = tokenMarker ++ s.data := by
        simp [authHeaderChars, hp]
      have hdrop : (tokenMarker ++ s.data).drop 6 = s.data := by
        have := List.drop_left tokenMarker s.data
        rwa [hlen] at this
      rw [hAH, hdrop]
      simpa using hp

/-- C9 (witness): the amended statement instantiated at the stored token
`"abc"`. -/
theorem C9_amended_witness :
    ("abc" == "") = false
    ∧ (requestAuthHeader (some "abc") = some (authHeaderChars "abc".data)
      ∧ startsWithChars tokenMarker (authHeaderChars "abc".data) = true
      ∧ (startsWithChars (tokenMarker ++ tokenMarker) "abc".data = false →
          startsWithChars tokenMarker ((authHeaderChars "abc".data).drop 6) = false)) := by
  exact ⟨by decide, C9_amended_header "abc" (by decide)⟩

/-- C10: a missing auth token is not a local failure: with a `none` stored
token, a file that passes validation still yields the multipart request, and
the request interceptor attaches no Authorization header. -/
theorem C10_missing_token_proceeds :
    ∀ (clip testId : String) (testType : Nat) (f : AudioFile),
    validateUserAudioFile f = .ok () →
    prepareAnalyzeRequest none clip testId testType f = .ok ⟨clip, testId, testType, f⟩
    ∧ requestAuthHeader none = none := by
  intro clip testId testType f h
  exact ⟨by simp [prepareAnalyzeRequest, h], rfl⟩

/-- C10 (witness): the statement instantiated at a valid MP3 file with no
stored token. -/
theorem C10_witness :
    validateUserAudioFile ⟨"audio/mpeg", "rec.mp3"⟩ = .ok ()
    ∧ (prepareAnalyzeRequest none "clip1" "test1" 0 ⟨"audio/mpeg", "rec.mp3"⟩ =
        .ok ⟨"clip1", "test1", 0, ⟨"audio/mpeg", "rec.mp3"⟩⟩
      ∧ requestAuthHeader none = none) := by
  exact ⟨rfl, C10_missing_token_proceeds "clip1" "test1" 0 ⟨"audio/mpeg", "rec.mp3"⟩ rfl⟩
